import Mathlib

/-!
Verification of the financial-metrics and resilient-request layer of the
Romanian financial intelligence MCP server
(`mcp-servers/competion-mcp-server/competition-mcp-server.py`).

Embedding conventions:
* Python floats are modelled as rationals (`ℚ`); Python `None` as `Option.none`.
* `round(x, n)` is modelled as round-half-even at `n` decimal places.
* A raised `ToolError` is `Except.error msg`; a normal return is `Except.ok`.
* `dict.get(key, 0)` on a financial record is `Option.getD 0` on the field.
* The Python truthiness guard `if x:` on an optional float is
  "present and nonzero"; `if x is not None:` is "present".
-/

namespace FinIntel

/-- Round a rational to the nearest integer, ties going to the even
integer (the behaviour of Python `round`). -/
def rhe (q : ℚ) : ℤ :=
  if q - ⌊q⌋ < 1/2 then ⌊q⌋
  else if 1/2 < q - ⌊q⌋ then ⌊q⌋ + 1
  else if ⌊q⌋ % 2 = 0 then ⌊q⌋ else ⌊q⌋ + 1

/-- Python `round(x, 2)`: round half to even at two decimal places. -/
def round2 (q : ℚ) : ℚ := (rhe (q * 100) : ℚ) / 100

theorem rhe_mono {a b : ℚ} (h : a ≤ b) : rhe a ≤ rhe b := by
  have hf : (⌊a⌋ : ℤ) ≤ ⌊b⌋ := Int.floor_mono h
  unfold rhe
  rcases lt_or_eq_of_le hf with hlt | heq
  · split_ifs <;> omega
  · have ha : a - (⌊a⌋ : ℚ) ≤ b - (⌊b⌋ : ℚ) := by
      rw [heq]
      have : ((⌊b⌋ : ℤ) : ℚ) = ((⌊b⌋ : ℤ) : ℚ) := rfl
      linarith
    split_ifs <;> first | omega | (exfalso; linarith)

theorem round2_mono {a b : ℚ} (h : a ≤ b) : round2 a ≤ round2 b := by
  unfold round2
  have h1 : rhe (a * 100) ≤ rhe (b * 100) :=
    rhe_mono (by linarith)
  have h2 : ((rhe (a * 100) : ℤ) : ℚ) ≤ ((rhe (b * 100) : ℤ) : ℚ) := by
    exact_mod_cast h1
  gcongr

/-- One raw financial record from the upstream registry.  Every field is
optional, mirroring the loosely-typed JSON payload. -/
structure RawFinancialRecord where
  revenue : Option ℚ
  cost_of_goods_sold : Option ℚ
  operating_income : Option ℚ
  net_income : Option ℚ
  total_assets : Option ℚ
  total_equity : Option ℚ
  total_debt : Option ℚ
  current_assets : Option ℚ
  current_liabilities : Option ℚ
  inventory : Option ℚ
  cash : Option ℚ
  accounts_receivable : Option ℚ
  ebit : Option ℚ
  interest_expense : Option ℚ
deriving DecidableEq

/-- The record with every field missing. -/
def emptyRecord : RawFinancialRecord :=
  ⟨none, none, none, none, none, none, none, none, none, none, none, none, none, none⟩

structure LiquidityRatios where
  current_ratio : Option ℚ
  quick_ratio : Option ℚ
  cash_ratio : Option ℚ
deriving DecidableEq

structure ProfitabilityRatios where
  gross_profit_margin : Option ℚ
  operating_profit_margin : Option ℚ
  net_profit_margin : Option ℚ
  roa : Option ℚ
  roe : Option ℚ
deriving DecidableEq

structure SolvencyRatios where
  debt_to_equity : Option ℚ
  debt_to_assets : Option ℚ
  equity_ratio : Option ℚ
  interest_coverage : Option ℚ
deriving DecidableEq

structure EfficiencyRatios where
  asset_turnover : Option ℚ
  inventory_turnover : Option ℚ
  receivables_turnover : Option ℚ
  days_sales_outstanding : Option ℚ
deriving DecidableEq

structure RatioSet where
  liquidity : LiquidityRatios
  profitability : ProfitabilityRatios
  solvency : SolvencyRatios
  efficiency : EfficiencyRatios
deriving DecidableEq

/-- Embedding of `calculate_liquidity_ratios` (source lines 387-410).
The `except` arm of the source (non-numeric input) is not reachable here
because fields are already numeric-or-missing in the model. -/
def calculate_liquidity_ratios (financials : RawFinancialRecord) : LiquidityRatios :=
  let current_assets := financials.current_assets.getD 0
  let current_liabilities := financials.current_liabilities.getD 0
  let inventory := financials.inventory.getD 0
  let cash := financials.cash.getD 0
  if 0 < current_liabilities then
    ⟨some (round2 (current_assets / current_liabilities)),
     some (round2 ((current_assets - inventory) / current_liabilities)),
     some (round2 (cash / current_liabilities))⟩
  else
    ⟨none, none, none⟩

/-- Embedding of `calculate_profitability_ratios` (source lines 413-444). -/
def calculate_profitability_ratios (financials : RawFinancialRecord) : ProfitabilityRatios :=
  let revenue := financials.revenue.getD 0
  let cogs := financials.cost_of_goods_sold.getD 0
  let operating_income := financials.operating_income.getD 0
  let net_income := financials.net_income.getD 0
  let total_assets := financials.total_assets.getD 0
  let total_equity := financials.total_equity.getD 0
  ⟨if 0 < revenue then some (round2 ((revenue - cogs) / revenue * 100)) else none,
   if 0 < revenue then some (round2 (operating_income / revenue * 100)) else none,
   if 0 < revenue then some (round2 (net_income / revenue * 100)) else none,
   if 0 < total_assets then some (round2 (net_income / total_assets * 100)) else none,
   if 0 < total_equity then some (round2 (net_income / total_equity * 100)) else none⟩

/-- Embedding of `calculate_solvency_ratios` (source lines 447-470). -/
def calculate_solvency_ratios (financials : RawFinancialRecord) : SolvencyRatios :=
  let total_debt := financials.total_debt.getD 0
  let total_equity := financials.total_equity.getD 0
  let total_assets := financials.total_assets.getD 0
  let ebit := financials.ebit.getD 0
  let interest_expense := financials.interest_expense.getD 0
  ⟨if 0 < total_equity then some (round2 (total_debt / total_equity)) else none,
   if 0 < total_assets then some (round2 (total_debt / total_assets)) else none,
   if 0 < total_assets then some (round2 (total_equity / total_assets)) else none,
   if 0 < interest_expense then some (round2 (ebit / interest_expense)) else none⟩

/-- Embedding of `calculate_efficiency_ratios` (source lines 473-502).
`days_sales_outstanding` uses Python `round(x, 0)`, which keeps float type,
hence a rational-valued round-half-even here. -/
def calculate_efficiency_ratios (financials : RawFinancialRecord) : EfficiencyRatios :=
  let revenue := financials.revenue.getD 0
  let total_assets := financials.total_assets.getD 0
  let cogs := financials.cost_of_goods_sold.getD 0
  let inventory := financials.inventory.getD 0
  let accounts_receivable := financials.accounts_receivable.getD 0
  ⟨if 0 < total_assets then some (round2 (revenue / total_assets)) else none,
   if 0 < inventory then some (round2 (cogs / inventory)) else none,
   if 0 < accounts_receivable ∧ 0 < revenue then
     some (round2 (revenue / accounts_receivable)) else none,
   if 0 < accounts_receivable ∧ 0 < revenue then
     some ((rhe (365 / (revenue / accounts_receivable)) : ℚ)) else none⟩

/-- The four ratio families computed from one record, as assembled by
`analyze_financial_ratios` and `compare_financial_performance`. -/
def ratioSetOf (financials : RawFinancialRecord) : RatioSet :=
  ⟨calculate_liquidity_ratios financials, calculate_profitability_ratios financials,
   calculate_solvency_ratios financials, calculate_efficiency_ratios financials⟩

/-- Liquidity band of `calculate_financial_health_score` (source lines
518-531).  The guard is the truthiness test `if ...get('current_ratio'):`,
so a missing or exactly-zero ratio earns nothing. -/
def healthLiquidityPts : Option ℚ → ℕ
  | none => 0
  | some cr =>
    if cr = 0 then 0
    else if 2 ≤ cr then 25
    else if 3/2 ≤ cr then 20
    else if 1 ≤ cr then 15
    else if 1/2 ≤ cr then 10
    else 5

/-- Net-profit-margin band of the health score (source lines 534-544,
guard `is not None`). -/
def healthNpmPts : Option ℚ → ℕ
  | none => 0
  | some npm =>
    if 15 ≤ npm then 20
    else if 10 ≤ npm then 15
    else if 5 ≤ npm then 10
    else if 0 ≤ npm then 5
    else 0

/-- Return-on-equity band of the health score (source lines 546-558). -/
def healthRoePts : Option ℚ → ℕ
  | none => 0
  | some roe =>
    if 20 ≤ roe then 10
    else if 15 ≤ roe then 8
    else if 10 ≤ roe then 6
    else if 5 ≤ roe then 4
    else if 0 ≤ roe then 2
    else 0

/-- Debt-to-equity band of the health score (source lines 561-571). -/
def healthDtePts : Option ℚ → ℕ
  | none => 0
  | some dte =>
    if dte ≤ 1/2 then 15
    else if dte ≤ 1 then 12
    else if dte ≤ 2 then 8
    else if dte ≤ 3 then 4
    else 0

/-- Interest-coverage band of the health score (source lines 573-583). -/
def healthIcPts : Option ℚ → ℕ
  | none => 0
  | some ic =>
    if 5 ≤ ic then 10
    else if 3 ≤ ic then 8
    else if 2 ≤ ic then 6
    else if 1 ≤ ic then 4
    else 0

/-- Asset-turnover band of the health score (source lines 586-596). -/
def healthAtPts : Option ℚ → ℕ
  | none => 0
  | some a =>
    if 2 ≤ a then 20
    else if 3/2 ≤ a then 15
    else if 1 ≤ a then 10
    else if 1/2 ≤ a then 5
    else 0

/-- Accumulated `score` of `calculate_financial_health_score`. -/
def healthRawScore (ratios : RatioSet) : ℕ :=
  healthLiquidityPts ratios.liquidity.current_ratio
    + healthNpmPts ratios.profitability.net_profit_margin
    + healthRoePts ratios.profitability.roe
    + healthDtePts ratios.solvency.debt_to_equity
    + healthIcPts ratios.solvency.interest_coverage
    + healthAtPts ratios.efficiency.asset_turnover

/-- Accumulated `max_score`: the source increments it outside each band
guard, once per band, unconditionally (lines 531, 544, 558, 571, 583, 596). -/
def healthMaxScore : ℕ := 25 + 20 + 10 + 15 + 10 + 20

/-- Rating bands on the final score (source lines 602-611). -/
def healthRating (final_score : ℤ) : String :=
  if 80 ≤ final_score then "Excellent"
  else if 65 ≤ final_score then "Good"
  else if 50 ≤ final_score then "Fair"
  else if 35 ≤ final_score then "Poor"
  else "Critical"

/-- Embedding of `calculate_financial_health_score` (source lines 505-613).
Python `int(x)` truncates toward zero; the quotient here is nonnegative so
that is the floor. -/
def calculate_financial_health_score (ratios : RatioSet) : ℤ × String :=
  let score := healthRawScore ratios
  let final_score : ℤ :=
    if 0 < healthMaxScore then ⌊((score : ℚ) / (healthMaxScore : ℚ)) * 100⌋ else 0
  (final_score, healthRating final_score)

/-- Following the spec's words, for comparison with the code: the achievable
maximum in which a band whose underlying ratio is null does not count. -/
def spec_pointsAchievable (ratios : RatioSet) : ℕ :=
  (if ratios.liquidity.current_ratio.isSome then 25 else 0)
    + (if ratios.profitability.net_profit_margin.isSome then 20 else 0)
    + (if ratios.profitability.roe.isSome then 10 else 0)
    + (if ratios.solvency.debt_to_equity.isSome then 15 else 0)
    + (if ratios.solvency.interest_coverage.isSome then 10 else 0)
    + (if ratios.efficiency.asset_turnover.isSome then 20 else 0)

/-- Following the spec's words: `points_earned / points_achievable × 100`,
rounded to nearest integer. -/
def spec_healthScore (ratios : RatioSet) : ℤ :=
  rhe ((healthRawScore ratios : ℚ) / (spec_pointsAchievable ratios : ℚ) * 100)

/-- Liquidity block of `assess_credit_risk` (source lines 1156-1169):
points earned plus any risk factor appended.  Guard is truthiness. -/
def creditLiquidityStep : Option ℚ → ℕ × List String
  | none => (0, [])
  | some cr =>
    if cr = 0 then (0, [])
    else if 2 ≤ cr then (25, [])
    else if 3/2 ≤ cr then (20, [])
    else if 1 ≤ cr then (15, [])
    else if 3/4 ≤ cr then (10, [])
    else (5, ["Critical liquidity shortage"])

/-- Profitability block of `assess_credit_risk` (source lines 1171-1183,
guard `is not None`). -/
def creditNpmStep : Option ℚ → ℕ × List String
  | none => (0, [])
  | some npm =>
    if 10 ≤ npm then (20, [])
    else if 5 ≤ npm then (15, [])
    else if 2 ≤ npm then (10, [])
    else if 0 ≤ npm then (5, [])
    else (0, ["Operating losses detected"])

/-- Debt-to-equity block of `assess_credit_risk` (source lines 1186-1199,
guard `is not None`). -/
def creditDteStep : Option ℚ → ℕ × List String
  | none => (0, [])
  | some dte =>
    if dte ≤ 1/2 then (20, [])
    else if dte ≤ 1 then (15, [])
    else if dte ≤ 2 then (10, [])
    else if dte ≤ 3 then (5, [])
    else (0, ["Excessive leverage"])

/-- Interest-coverage block of `assess_credit_risk` (source lines
1201-1211): guard is truthiness, and the lowest bucket earns no points but
appends a risk factor. -/
def creditIcStep : Option ℚ → ℕ × List String
  | none => (0, [])
  | some ic =>
    if ic = 0 then (0, [])
    else if 5 ≤ ic then (15, [])
    else if 3 ≤ ic then (12, [])
    else if 2 ≤ ic then (8, [])
    else if 1 ≤ ic then (4, [])
    else (0, ["Insufficient interest coverage"])

/-- ROA block of `assess_credit_risk` (source lines 1214-1223,
guard `is not None`, no risk factor). -/
def creditRoaPts : Option ℚ → ℕ
  | none => 0
  | some roa =>
    if 15 ≤ roa then 20
    else if 10 ≤ roa then 15
    else if 5 ≤ roa then 10
    else if 0 ≤ roa then 5
    else 0

/-- The credit scoring core of `assess_credit_risk` (source lines
1152-1223): total points and the risk factors in appending order. -/
def creditScoreOf (liq : LiquidityRatios) (prof : ProfitabilityRatios)
    (sol : SolvencyRatios) : ℕ × List String :=
  let l := creditLiquidityStep liq.current_ratio
  let p := creditNpmStep prof.net_profit_margin
  let d := creditDteStep sol.debt_to_equity
  let i := creditIcStep sol.interest_coverage
  let r := creditRoaPts prof.roa
  (l.1 + p.1 + d.1 + i.1 + r, l.2 ++ p.2 ++ d.2 ++ i.2)

/-- Letter rating, risk level and default-probability band from the credit
score (source lines 1226-1245). -/
def creditRatingInfo (credit_score : ℕ) : String × String × String :=
  if 90 ≤ credit_score then ("AAA", "Minimal", "< 0.5%")
  else if 80 ≤ credit_score then ("AA", "Very Low", "0.5-1%")
  else if 70 ≤ credit_score then ("A", "Low", "1-2%")
  else if 60 ≤ credit_score then ("BBB", "Moderate", "2-5%")
  else if 50 ≤ credit_score then ("BB", "Elevated", "5-10%")
  else if 40 ≤ credit_score then ("B", "High", "10-20%")
  else if 30 ≤ credit_score then ("CCC", "Very High", "20-35%")
  else if 20 ≤ credit_score then ("CC", "Substantial", "35-50%")
  else if 10 ≤ credit_score then ("C", "Extremely High", "50-75%")
  else ("D", "Default Imminent", "> 75%")

/-- The letter rating `assess_credit_risk` produces for a set of ratios. -/
def creditRatingOf (liq : LiquidityRatios) (prof : ProfitabilityRatios)
    (sol : SolvencyRatios) : String :=
  (creditRatingInfo (creditScoreOf liq prof sol).1).1

/-- Ordinal position of a letter rating on the scale
D < C < CC < CCC < B < BB < BBB < A < AA < AAA. -/
def ratingOrdinal (r : String) : ℕ :=
  if r = "AAA" then 9
  else if r = "AA" then 8
  else if r = "A" then 7
  else if r = "BBB" then 6
  else if r = "BB" then 5
  else if r = "B" then 4
  else if r = "CCC" then 3
  else if r = "CC" then 2
  else if r = "C" then 1
  else 0

/-- Python `str.strip()`: drop whitespace from both ends. -/
def pyStrip (s : List Char) : List Char :=
  ((s.dropWhile Char.isWhitespace).reverse.dropWhile Char.isWhitespace).reverse

/-- Fuel-driven core of Python `str.replace(pat, "")` for a nonempty
pattern `p :: ps`: delete non-overlapping occurrences left to right.
The fuel is an artifact for structural recursion; `l.length` always
suffices since each step consumes at least one character. -/
def delOccFuel (p : Char) (ps : List Char) : Nat → List Char → List Char
  | 0, l => l
  | _ + 1, [] => []
  | fuel + 1, c :: cs =>
    if (p :: ps).isPrefixOf (c :: cs) then
      delOccFuel p ps fuel (List.drop ps.length cs)
    else
      c :: delOccFuel p ps fuel cs

/-- Python `s.replace(pat, "")` (the only use of `replace` in
`validate_tax_id`). -/
def pyDelete (pat : String) (l : List Char) : List Char :=
  match pat.toList with
  | [] => l
  | p :: ps => delOccFuel p ps l.length l

/-- The cleaning pipeline of `validate_tax_id` (source lines 278-280):
strip, uppercase, delete every "RO"/"CUI"/"CIF" occurrence, strip again,
keep only digits. -/
def normalizeTaxId (tax_id : String) : List Char :=
  let cleaned := (pyStrip tax_id.toList).map Char.toUpper
  let cleaned := pyDelete "RO" cleaned
  let cleaned := pyDelete "CUI" cleaned
  let cleaned := pyDelete "CIF" cleaned
  let cleaned := pyStrip cleaned
  cleaned.filter Char.isDigit

/-- Embedding of `validate_tax_id` (source lines 262-288). -/
def validate_tax_id (tax_id : String) : Except String String :=
  if tax_id = "" then .error "Tax ID must be a non-empty string"
  else
    let cleaned := normalizeTaxId tax_id
    if cleaned = [] then .error "Invalid tax ID: must contain digits"
    else if cleaned.length < 2 ∨ 10 < cleaned.length then
      .error "Invalid tax ID length: must be 2-10 digits"
    else .ok (String.mk cleaned)

/-- Outcome of one attempt against the upstream endpoint, as
distinguished by `make_request_with_retry`. -/
inductive UpstreamAttempt (α : Type) where
  | http (status : Nat) (body : α)
  | timeout
  | clientError (msg : String)
  | otherError (msg : String)

/-- The retry loop of `make_request_with_retry` (source lines 311-348),
from attempt index `attempt` with `remaining` loop iterations left.
Returns the Python return/raise outcome together with the list of
back-off sleeps (`RETRY_BACKOFF_FACTOR ** attempt` with factor 2) that
were performed.  Falling off the loop returns `None` (source line 348). -/
def retryFrom {α : Type} (ep : Nat → UpstreamAttempt α) (attempt : Nat) :
    Nat → Except String (Option α) × List ℕ
  | 0 => (.ok none, [])
  | remaining + 1 =>
    match ep attempt with
    | .http s body =>
      if s = 200 then (.ok (some body), [])
      else if s = 401 then (.error "Authentication failed - Invalid API key", [])
      else if s = 404 then (.ok none, [])
      else if s = 429 then
        let rest := retryFrom ep (attempt + 1) remaining
        (rest.1, 2 ^ attempt :: rest.2)
      else if remaining = 0 then
        (.error ("API request failed with status " ++ toString s), [])
      else
        let rest := retryFrom ep (attempt + 1) remaining
        (rest.1, 2 ^ attempt :: rest.2)
    | .timeout =>
      if remaining = 0 then (.error "Request timeout - API not responding", [])
      else
        let rest := retryFrom ep (attempt + 1) remaining
        (rest.1, 2 ^ attempt :: rest.2)
    | .clientError m =>
      if remaining = 0 then (.error ("Network error: " ++ m), [])
      else
        let rest := retryFrom ep (attempt + 1) remaining
        (rest.1, 2 ^ attempt :: rest.2)
    | .otherError m => (.error ("Request failed: " ++ m), [])

/-- Embedding of `make_request_with_retry` (source lines 291-348): the
endpoint is a function from attempt index to attempt outcome; default
budget is `MAX_RETRIES = 3` at call sites. -/
def make_request_with_retry {α : Type} (ep : Nat → UpstreamAttempt α)
    (max_retries : Nat) : Except String (Option α) × List ℕ :=
  retryFrom ep 0 max_retries

/-- Company profile payload: only the `name` key is read by
`compare_financial_performance`. -/
structure CompanyProfile where
  name : Option String
deriving DecidableEq

/-- One per-company entry of the comparison result (source lines
1038-1047). -/
structure CompanyEntry where
  tax_id : String
  company_name : String
  revenue : ℚ
  net_income : ℚ
  total_assets : ℚ
  ratios : RatioSet
  health_score : ℤ
  health_rating : String
deriving DecidableEq

/-- Build one comparison entry from a fetched profile and record
(source lines 1028-1047). -/
def companyEntryOf (tax_id : String) (profile : CompanyProfile)
    (financial : RawFinancialRecord) : CompanyEntry :=
  let ratios := ratioSetOf financial
  let hs := calculate_financial_health_score ratios
  ⟨tax_id, profile.name.getD "Unknown", financial.revenue.getD 0,
   financial.net_income.getD 0, financial.total_assets.getD 0,
   ratios, hs.1, hs.2⟩

/-- Result of a comparison.  The per-entity entries and their count; the
derived statistics/rankings/leader fields of the source dict are not
modelled because no claim refers to them and the standard deviation is
real-valued. -/
structure ComparisonResult where
  companies_compared : ℕ
  companies : List CompanyEntry
deriving DecidableEq

/-- The `companies_data` accumulation of `compare_financial_performance`
(source lines 1023-1047): an entity survives only when both its profile
and its financial fetch succeeded. -/
def comparisonEntries (cleaned_ids : List String)
    (fetchProfile : String → Option CompanyProfile)
    (fetchFinancial : String → Option RawFinancialRecord) : List CompanyEntry :=
  cleaned_ids.filterMap (fun cid =>
    match fetchProfile cid, fetchFinancial cid with
    | some p, some f => some (companyEntryOf cid p f)
    | _, _ => none)

/-- Embedding of `compare_financial_performance` (source lines 982-1112).
A fetch that raised or produced no data is `none`, and fewer than two
surviving entities raise. -/
def compare_financial_performance (tax_ids : List String)
    (fetchProfile : String → Option CompanyProfile)
    (fetchFinancial : String → Option RawFinancialRecord) :
    Except String ComparisonResult :=
  if tax_ids.length < 2 then .error "Provide at least 2 companies to compare"
  else if 10 < tax_ids.length then .error "Maximum 10 companies allowed for comparison"
  else
    match tax_ids.mapM validate_tax_id with
    | .error e => .error e
    | .ok cleaned_ids =>
      let companies_data := comparisonEntries cleaned_ids fetchProfile fetchFinancial
      if companies_data.length < 2 then
        .error "Could not retrieve financial data for enough companies"
      else
        .ok ⟨companies_data.length, companies_data⟩

/-- Helper: when the endpoint answers 429 on every attempt, the retry loop
sleeps `2 ^ attempt` at each attempt, exhausts the budget, and returns
`None`. -/
theorem retryFrom_const429 {α : Type} (ep : Nat → UpstreamAttempt α)
    (hb : ∀ i, ∃ b, ep i = UpstreamAttempt.http 429 b) :
    ∀ (r a : ℕ), retryFrom ep a r
      = (Except.ok none, (List.range r).map (fun i => 2 ^ (a + i))) := by
  intro r
  induction r with
  | zero => intro a; simp [retryFrom]
  | succ n ih =>
    intro a
    obtain ⟨b, hab⟩ := hb a
    simp only [retryFrom, hab]
    norm_num
    rw [ih (a + 1), List.range_succ_eq_map]
    simp only [List.map_cons, List.map_map, Prod.mk.injEq, true_and]
    congr 1
    refine List.map_congr_left ?_
    intro i _
    simp only [Function.comp_apply, Nat.succ_eq_add_one]
    congr 1
    omega

/-- Claim C1 counterexample: with the endpoint answering HTTP 429 on every
attempt and the default budget `MAX_RETRIES = 3`, `make_request_with_retry`
performs the three back-off sleeps and then returns `None` — the same value
it uses as the not-found sentinel — instead of raising a typed
rate-limit error as the claim states. -/
theorem claim1_counterexample :
    (make_request_with_retry (fun _ => UpstreamAttempt.http 429 ()) 3).1
        = Except.ok none
    ∧ (make_request_with_retry (fun _ => UpstreamAttempt.http 429 ()) 3).2
        = [1, 2, 4] :=
  ⟨rfl, rfl⟩

/-- Claim C1 (amended): for every endpoint that answers HTTP 429 on every
attempt, `make_request_with_retry` retries with exponential backoff of
`backoff_factor ** attempt` seconds, consuming one unit of the retry budget
per attempt, and when the budget of `max_retries` attempts is exhausted it
returns `None` — the same sentinel used for a 404 not-found — rather than
raising a typed error. -/
theorem claim1_retry_exhaustion_returns_none {α : Type}
    (ep : Nat → UpstreamAttempt α)
    (hb : ∀ i, ∃ b, ep i = UpstreamAttempt.http 429 b) (max_retries : ℕ) :
    make_request_with_retry ep max_retries
      = (Except.ok none, (List.range max_retries).map (fun i => 2 ^ i)) := by
  unfold make_request_with_retry
  rw [retryFrom_const429 ep hb max_retries 0]
  simp

/-- Claim C1 witness: the amended theorem applied to the concrete
always-429 endpoint with the default budget of 3. -/
theorem claim1_retry_exhaustion_returns_none_witness :
    make_request_with_retry (fun _ => UpstreamAttempt.http 429 ()) 3
      = (Except.ok none, [1, 2, 4]) :=
  (claim1_retry_exhaustion_returns_none (fun _ => UpstreamAttempt.http 429 ())
    (fun _ => ⟨(), rfl⟩) 3).trans (by norm_num [List.range_succ])

/-- Claim C6: whenever `current_liabilities` is absent or non-positive,
every liquidity ratio is `None` — never zero, and (the embedding being a
total function) never an exception. -/
theorem claim6_null_liquidity_on_nonpositive_liabilities
    (financials : RawFinancialRecord)
    (h : financials.current_liabilities = none
          ∨ financials.current_liabilities.getD 0 ≤ 0) :
    calculate_liquidity_ratios financials = ⟨none, none, none⟩ := by
  have hcl : ¬ (0 < financials.current_liabilities.getD 0) := by
    rcases h with h | h
    · rw [h]; norm_num
    · linarith
  simp [calculate_liquidity_ratios, hcl]

/-- Claim C6 witness: the all-missing record. -/
theorem claim6_null_liquidity_witness :
    calculate_liquidity_ratios emptyRecord = ⟨none, none, none⟩ :=
  claim6_null_liquidity_on_nonpositive_liabilities emptyRecord (Or.inl rfl)

/-- Record with `current_assets = 1`, `current_liabilities = 3`. -/
def recC5 : RawFinancialRecord :=
  ⟨none, none, none, none, none, none, none, some 1, some 3, none, none,
   none, none, none⟩

/-- Claim C5 counterexample: with assets 1 and liabilities 3 the source
stores `round(1/3, 2) = 0.33`, so `current_ratio == current_assets /
current_liabilities` is false — the stored ratio is rounded to two
decimal places. -/
theorem claim5_counterexample :
    (calculate_liquidity_ratios recC5).current_ratio = some (33/100)
    ∧ (33 : ℚ)/100 ≠ (1 : ℚ)/3 := by
  constructor
  · norm_num [calculate_liquidity_ratios, recC5, round2, rhe]
  · norm_num

/-- Claim C5 (amended): for every record with positive
`current_liabilities`, the stored `current_ratio` equals
`current_assets / current_liabilities` rounded to two decimal places, and
`quick_ratio ≤ current_ratio` whenever `inventory ≥ 0`. -/
theorem claim5_liquidity_ratio_relations (financials : RawFinancialRecord)
    (h : 0 < financials.current_liabilities.getD 0) :
    (calculate_liquidity_ratios financials).current_ratio
      = some (round2 (financials.current_assets.getD 0
          / financials.current_liabilities.getD 0))
    ∧ (0 ≤ financials.inventory.getD 0 →
        (calculate_liquidity_ratios financials).quick_ratio.getD 0
          ≤ (calculate_liquidity_ratios financials).current_ratio.getD 0) := by
  constructor
  · simp [calculate_liquidity_ratios, h]
  · intro hinv
    simp only [calculate_liquidity_ratios, if_pos h, Option.getD_some]
    apply round2_mono
    gcongr
    linarith

/-- Record with `current_assets = 2`, `current_liabilities = 1`,
`inventory = 1`. -/
def recC5w : RawFinancialRecord :=
  ⟨none, none, none, none, none, none, none, some 2, some 1, some 1, none,
   none, none, none⟩

/-- Claim C5 witness: the amended theorem at a concrete record. -/
theorem claim5_liquidity_ratio_relations_witness :
    (calculate_liquidity_ratios recC5w).current_ratio
      = some (round2 (recC5w.current_assets.getD 0
          / recC5w.current_liabilities.getD 0))
    ∧ (0 ≤ recC5w.inventory.getD 0 →
        (calculate_liquidity_ratios recC5w).quick_ratio.getD 0
          ≤ (calculate_liquidity_ratios recC5w).current_ratio.getD 0) :=
  claim5_liquidity_ratio_relations recC5w (by norm_num [recC5w])

/-- Helper: the final health score equals the raw accumulated points,
because `max_score` is always 100 and the division cancels exactly. -/
theorem health_final_eq (ratios : RatioSet) :
    (calculate_financial_health_score ratios).1 = (healthRawScore ratios : ℤ) := by
  unfold calculate_financial_health_score
  norm_num [healthMaxScore]

/-- Helper: each health band is bounded by its maximum, so the raw score
is at most 100. -/
theorem healthRawScore_le_100 (ratios : RatioSet) : healthRawScore ratios ≤ 100 := by
  have h1 : healthLiquidityPts ratios.liquidity.current_ratio ≤ 25 := by
    rcases ratios.liquidity.current_ratio with _ | v
    · simp [healthLiquidityPts]
    · simp only [healthLiquidityPts]; split_ifs <;> omega
  have h2 : healthNpmPts ratios.profitability.net_profit_margin ≤ 20 := by
    rcases ratios.profitability.net_profit_margin with _ | v
    · simp [healthNpmPts]
    · simp only [healthNpmPts]; split_ifs <;> omega
  have h3 : healthRoePts ratios.profitability.roe ≤ 10 := by
    rcases ratios.profitability.roe with _ | v
    · simp [healthRoePts]
    · simp only [healthRoePts]; split_ifs <;> omega
  have h4 : healthDtePts ratios.solvency.debt_to_equity ≤ 15 := by
    rcases ratios.solvency.debt_to_equity with _ | v
    · simp [healthDtePts]
    · simp only [healthDtePts]; split_ifs <;> omega
  have h5 : healthIcPts ratios.solvency.interest_coverage ≤ 10 := by
    rcases ratios.solvency.interest_coverage with _ | v
    · simp [healthIcPts]
    · simp only [healthIcPts]; split_ifs <;> omega
  have h6 : healthAtPts ratios.efficiency.asset_turnover ≤ 20 := by
    rcases ratios.efficiency.asset_turnover with _ | v
    · simp [healthAtPts]
    · simp only [healthAtPts]; split_ifs <;> omega
  unfold healthRawScore
  omega

/-- Claim C7: the health score is an integer in [0, 100] for every
RatioSet, and the RatioSet derived from the all-missing record scores 0
with rating "Critical" (the embedding is total, so no exception arises). -/
theorem claim7_health_score_range :
    (∀ ratios : RatioSet,
        0 ≤ (calculate_financial_health_score ratios).1
        ∧ (calculate_financial_health_score ratios).1 ≤ 100)
    ∧ calculate_financial_health_score (ratioSetOf emptyRecord) = (0, "Critical") := by
  constructor
  · intro ratios
    rw [health_final_eq]
    constructor
    · exact_mod_cast Nat.zero_le _
    · exact_mod_cast healthRawScore_le_100 ratios
  · norm_num [calculate_financial_health_score, ratioSetOf, calculate_liquidity_ratios,
      calculate_profitability_ratios, calculate_solvency_ratios, calculate_efficiency_ratios,
      emptyRecord, healthRawScore, healthLiquidityPts, healthNpmPts, healthRoePts,
      healthDtePts, healthIcPts, healthAtPts, healthMaxScore, healthRating]

/-- RatioSet whose only present ratio is `current_ratio = 2.0`. -/
def ratioSetC2 : RatioSet :=
  ⟨⟨some 2, none, none⟩, ⟨none, none, none, none, none⟩,
   ⟨none, none, none, none⟩, ⟨none, none, none, none⟩⟩

/-- Claim C2 counterexample: on a RatioSet whose only non-null ratio is a
full-marks current ratio, the code yields 25 (the achievable denominator
stays 100), while the spec formula with a shrinking achievable denominator
yields 100. -/
theorem claim2_counterexample :
    (calculate_financial_health_score ratioSetC2).1 = 25
    ∧ spec_healthScore ratioSetC2 = 100
    ∧ (25 : ℤ) ≠ 100 := by
  refine ⟨?_, ?_, by norm_num⟩
  · norm_num [calculate_financial_health_score, ratioSetC2, healthRawScore,
      healthLiquidityPts, healthNpmPts, healthRoePts, healthDtePts, healthIcPts,
      healthAtPts, healthMaxScore]
  · norm_num [spec_healthScore, ratioSetC2, spec_pointsAchievable, healthRawScore,
      healthLiquidityPts, healthNpmPts, healthRoePts, healthDtePts, healthIcPts,
      healthAtPts, rhe]

/-- Claim C2 (amended): the final health score equals points earned with
the achievable maximum fixed at 100 — a band whose underlying ratio is
null contributes zero points earned but still counts toward the
achievable maximum. -/
theorem claim2_health_denominator_fixed :
    (∀ ratios : RatioSet,
        (calculate_financial_health_score ratios).1 = (healthRawScore ratios : ℤ))
    ∧ healthMaxScore = 100
    ∧ healthLiquidityPts none = 0 ∧ healthNpmPts none = 0 ∧ healthRoePts none = 0
    ∧ healthDtePts none = 0 ∧ healthIcPts none = 0 ∧ healthAtPts none = 0 :=
  ⟨health_final_eq, by decide, rfl, rfl, rfl, rfl, rfl, rfl⟩

/-- Replace the `current_ratio` entry of a RatioSet. -/
def setCurrentRatio (ratios : RatioSet) (v : Option ℚ) : RatioSet :=
  ⟨⟨v, ratios.liquidity.quick_ratio, ratios.liquidity.cash_ratio⟩,
   ratios.profitability, ratios.solvency, ratios.efficiency⟩

/-- Replace the `current_ratio` entry of a liquidity group. -/
def setLiqCurrentRatio (liq : LiquidityRatios) (v : Option ℚ) : LiquidityRatios :=
  ⟨v, liq.quick_ratio, liq.cash_ratio⟩

/-- Replace the `interest_coverage` entry of a solvency group. -/
def setInterestCoverage (sol : SolvencyRatios) (v : Option ℚ) : SolvencyRatios :=
  ⟨sol.debt_to_equity, sol.debt_to_assets, sol.equity_ratio, v⟩

/-- Claim C10: because the band guards on `current_ratio` (health and
credit scoring) and `interest_coverage` (credit scoring) are truthiness
tests, a ratio of exactly 0.0 is treated like an absent ratio: the band is
skipped entirely (0 points, no risk factor), whereas a small positive
value enters the lowest "else" bucket (+5 points for current-ratio bands;
0 points but a risk factor for the credit interest-coverage band). -/
theorem claim10_truthiness_zero_as_null :
    (∀ ratios : RatioSet,
        calculate_financial_health_score (setCurrentRatio ratios (some 0))
          = calculate_financial_health_score (setCurrentRatio ratios none))
    ∧ (∀ ratios : RatioSet,
        (calculate_financial_health_score (setCurrentRatio ratios (some (1/10)))).1
          = (calculate_financial_health_score (setCurrentRatio ratios none)).1 + 5)
    ∧ (∀ (liq : LiquidityRatios) (prof : ProfitabilityRatios) (sol : SolvencyRatios),
        creditScoreOf (setLiqCurrentRatio liq (some 0)) prof sol
          = creditScoreOf (setLiqCurrentRatio liq none) prof sol)
    ∧ (∀ (liq : LiquidityRatios) (prof : ProfitabilityRatios) (sol : SolvencyRatios),
        (creditScoreOf (setLiqCurrentRatio liq (some (1/10))) prof sol).1
          = (creditScoreOf (setLiqCurrentRatio liq none) prof sol).1 + 5)
    ∧ (∀ (liq : LiquidityRatios) (prof : ProfitabilityRatios) (sol : SolvencyRatios),
        creditScoreOf liq prof (setInterestCoverage sol (some 0))
          = creditScoreOf liq prof (setInterestCoverage sol none))
    ∧ (∀ (liq : LiquidityRatios) (prof : ProfitabilityRatios) (sol : SolvencyRatios),
        (creditScoreOf liq prof (setInterestCoverage sol (some (1/2)))).1
          = (creditScoreOf liq prof (setInterestCoverage sol none)).1
        ∧ (creditScoreOf liq prof (setInterestCoverage sol (some (1/2)))).2
          = (creditScoreOf liq prof (setInterestCoverage sol none)).2
              ++ ["Insufficient interest coverage"]) := by
  refine ⟨?_, ?_, ?_, ?_, ?_, ?_⟩
  · intro ratios
    simp [calculate_financial_health_score, healthRawScore, setCurrentRatio,
      healthLiquidityPts]
  · intro ratios
    rw [health_final_eq, health_final_eq]
    have : healthRawScore (setCurrentRatio ratios (some (1/10)))
        = healthRawScore (setCurrentRatio ratios none) + 5 := by
      simp only [healthRawScore, setCurrentRatio, healthLiquidityPts]
      norm_num
      omega
    rw [this]
    push_cast
    ring
  · intro liq prof sol
    simp [creditScoreOf, setLiqCurrentRatio, creditLiquidityStep]
  · intro liq prof sol
    simp only [creditScoreOf, setLiqCurrentRatio, creditLiquidityStep]
    norm_num
    omega
  · intro liq prof sol
    simp [creditScoreOf, setInterestCoverage, creditIcStep]
  · intro liq prof sol
    constructor
    · simp only [creditScoreOf, setInterestCoverage, creditIcStep]
      norm_num
    · simp only [creditScoreOf, setInterestCoverage, creditIcStep]
      norm_num

/-- Helper: the liquidity credit band is monotone in the ratio as long as
neither value is exactly zero (zero falls out of the truthiness guard). -/
theorem creditLiquidityStep_mono {a b : ℚ} (ha : a ≠ 0) (hb : b ≠ 0) (h : a ≤ b) :
    (creditLiquidityStep (some a)).1 ≤ (creditLiquidityStep (some b)).1 := by
  simp only [creditLiquidityStep, if_neg ha, if_neg hb]
  split_ifs <;> first | omega | (exfalso; linarith)

/-- Helper: the net-margin credit band is monotone in the margin. -/
theorem creditNpmStep_mono {a b : ℚ} (h : a ≤ b) :
    (creditNpmStep (some a)).1 ≤ (creditNpmStep (some b)).1 := by
  simp only [creditNpmStep]
  split_ifs <;> first | omega | (exfalso; linarith)

/-- Helper: the debt-to-equity credit band is antitone in the ratio
(lower leverage is better). -/
theorem creditDteStep_anti {a b : ℚ} (h : b ≤ a) :
    (creditDteStep (some a)).1 ≤ (creditDteStep (some b)).1 := by
  simp only [creditDteStep]
  split_ifs <;> first | omega | (exfalso; linarith)

/-- Helper: the interest-coverage credit band is monotone in the ratio on
all of ℚ — the zero case and the "else" bucket both award 0 points. -/
theorem creditIcStep_mono {a b : ℚ} (h : a ≤ b) :
    (creditIcStep (some a)).1 ≤ (creditIcStep (some b)).1 := by
  simp only [creditIcStep]
  split_ifs <;> first | omega | (exfalso; linarith)

/-- Helper: the ROA credit band is monotone in the ratio. -/
theorem creditRoaPts_mono {a b : ℚ} (h : a ≤ b) :
    creditRoaPts (some a) ≤ creditRoaPts (some b) := by
  simp only [creditRoaPts]
  split_ifs <;> first | omega | (exfalso; linarith)

/-- Band index of the letter-rating table: 9 for AAA down to 0 for D. -/
def creditBandIdx (credit_score : ℕ) : ℕ :=
  if 90 ≤ credit_score then 9
  else if 80 ≤ credit_score then 8
  else if 70 ≤ credit_score then 7
  else if 60 ≤ credit_score then 6
  else if 50 ≤ credit_score then 5
  else if 40 ≤ credit_score then 4
  else if 30 ≤ credit_score then 3
  else if 20 ≤ credit_score then 2
  else if 10 ≤ credit_score then 1
  else 0

/-- Helper: the letter produced by the rating table sits at the band index
on the ordinal scale. -/
theorem ratingOrdinal_creditRatingInfo (credit_score : ℕ) :
    ratingOrdinal (creditRatingInfo credit_score).1 = creditBandIdx credit_score := by
  unfold creditRatingInfo creditBandIdx
  split_ifs <;> simp [ratingOrdinal]

/-- Helper: closed form of the band index. -/
theorem creditBandIdx_eq (m : ℕ) : creditBandIdx m = min (m / 10) 9 := by
  unfold creditBandIdx
  split_ifs <;> omega

/-- Helper: the band index is monotone in the score. -/
theorem creditBandIdx_mono {m n : ℕ} (h : m ≤ n) :
    creditBandIdx m ≤ creditBandIdx n := by
  rw [creditBandIdx_eq, creditBandIdx_eq]
  omega

/-- First RatioSet pieces of the C4 counterexample:
`current_ratio = -1`, `npm = 10`, `roa = 15`, `dte = 0.5`, `ic = 5`. -/
def liqC4a : LiquidityRatios := ⟨some (-1), none, none⟩

def profC4a : ProfitabilityRatios := ⟨none, none, some 10, some 15, none⟩

def solC4a : SolvencyRatios := ⟨some (1/2), none, none, some 5⟩

/-- Second RatioSet pieces of the C4 counterexample, strictly better on
every underlying ratio: `current_ratio = 0`, `npm = 11`, `roa = 16`,
`dte = 0.4`, `ic = 6`. -/
def liqC4b : LiquidityRatios := ⟨some 0, none, none⟩

def profC4b : ProfitabilityRatios := ⟨none, none, some 11, some 16, none⟩

def solC4b : SolvencyRatios := ⟨some (2/5), none, none, some 6⟩

/-- Claim C4 counterexample: strictly improving every underlying ratio
(current ratio -1 → 0, margin 10 → 11, leverage 0.5 → 0.4, coverage
5 → 6, ROA 15 → 16) drops the letter rating from AA to A, because a
current ratio of exactly 0.0 fails the truthiness guard and earns 0
points where -1 earned the else-bucket's 5. -/
theorem claim4_counterexample :
    creditRatingOf liqC4a profC4a solC4a = "AA"
    ∧ creditRatingOf liqC4b profC4b solC4b = "A"
    ∧ ratingOrdinal "A" < ratingOrdinal "AA"
    ∧ (-1 : ℚ) < 0 ∧ (10 : ℚ) < 11 ∧ (2/5 : ℚ) < 1/2 ∧ (5 : ℚ) < 6
    ∧ (15 : ℚ) < 16 := by
  refine ⟨?_, ?_, by decide, by norm_num, by norm_num,
    by norm_num, by norm_num, by norm_num⟩
  · norm_num [creditRatingOf, creditScoreOf, liqC4a, profC4a, solC4a,
      creditLiquidityStep, creditNpmStep, creditDteStep, creditIcStep,
      creditRoaPts, creditRatingInfo]
  · norm_num [creditRatingOf, creditScoreOf, liqC4b, profC4b, solC4b,
      creditLiquidityStep, creditNpmStep, creditDteStep, creditIcStep,
      creditRoaPts, creditRatingInfo]

/-- Claim C4 (amended): the credit letter rating is monotonically
non-decreasing under strict improvement of every underlying ratio
(current ratio, net margin, ROA upward; debt-to-equity downward; interest
coverage upward), provided the current ratio is nonzero on both sides so
that neither falls out of the truthiness guard. -/
theorem claim4_rating_monotone
    (liq1 liq2 : LiquidityRatios) (prof1 prof2 : ProfitabilityRatios)
    (sol1 sol2 : SolvencyRatios)
    (cr1 cr2 npm1 npm2 dte1 dte2 ic1 ic2 roa1 roa2 : ℚ)
    (hl1 : liq1.current_ratio = some cr1) (hl2 : liq2.current_ratio = some cr2)
    (hp1 : prof1.net_profit_margin = some npm1)
    (hp2 : prof2.net_profit_margin = some npm2)
    (hr1 : prof1.roa = some roa1) (hr2 : prof2.roa = some roa2)
    (hd1 : sol1.debt_to_equity = some dte1) (hd2 : sol2.debt_to_equity = some dte2)
    (hi1 : sol1.interest_coverage = some ic1) (hi2 : sol2.interest_coverage = some ic2)
    (hcr1 : cr1 ≠ 0) (hcr2 : cr2 ≠ 0)
    (hcr : cr1 < cr2) (hnpm : npm1 < npm2) (hdte : dte2 < dte1)
    (hic : ic1 < ic2) (hroa : roa1 < roa2) :
    ratingOrdinal (creditRatingOf liq1 prof1 sol1)
      ≤ ratingOrdinal (creditRatingOf liq2 prof2 sol2) := by
  unfold creditRatingOf
  rw [ratingOrdinal_creditRatingInfo, ratingOrdinal_creditRatingInfo]
  apply creditBandIdx_mono
  simp only [creditScoreOf, hl1, hl2, hp1, hp2, hr1, hr2, hd1, hd2, hi1, hi2]
  have h1 := creditLiquidityStep_mono hcr1 hcr2 (le_of_lt hcr)
  have h2 := creditNpmStep_mono (le_of_lt hnpm)
  have h3 := creditDteStep_anti (le_of_lt hdte)
  have h4 := creditIcStep_mono (le_of_lt hic)
  have h5 := creditRoaPts_mono (le_of_lt hroa)
  omega

/-- Claim C4 witness: the amended theorem applied to two concrete
RatioSets with every ratio strictly improved and nonzero current ratios. -/
theorem claim4_rating_monotone_witness :
    ratingOrdinal (creditRatingOf ⟨some 1, none, none⟩ ⟨none, none, some 1, some 1, none⟩
        ⟨some 2, none, none, some 1⟩)
      ≤ ratingOrdinal (creditRatingOf ⟨some 2, none, none⟩ ⟨none, none, some 2, some 2, none⟩
        ⟨some 1, none, none, some 2⟩) :=
  claim4_rating_monotone ⟨some 1, none, none⟩ ⟨some 2, none, none⟩
    ⟨none, none, some 1, some 1, none⟩ ⟨none, none, some 2, some 2, none⟩
    ⟨some 2, none, none, some 1⟩ ⟨some 1, none, none, some 2⟩
    1 2 1 2 2 1 1 2 1 2
    rfl rfl rfl rfl rfl rfl rfl rfl rfl rfl
    (by norm_num) (by norm_num) (by norm_num) (by norm_num) (by norm_num)
    (by norm_num) (by norm_num)

/-- Claim C8: `validate_tax_id` normalizes "RO 12345678" to "12345678"
and returns it; "1" and "12345678901" raise; and in general an input is
accepted exactly when its normalized digit string has length 2 to 10. -/
theorem claim8_validate_tax_id :
    validate_tax_id "RO 12345678" = Except.ok "12345678"
    ∧ (validate_tax_id "1").isOk = false
    ∧ (validate_tax_id "12345678901").isOk = false
    ∧ ∀ s : String, (validate_tax_id s).isOk = true
        ↔ (2 ≤ (normalizeTaxId s).length ∧ (normalizeTaxId s).length ≤ 10) := by
  refine ⟨rfl, rfl, rfl, ?_⟩
  intro s
  rcases eq_or_ne s "" with hs | hs
  · subst hs
    decide
  · simp only [validate_tax_id, if_neg hs]
    rcases eq_or_ne (normalizeTaxId s) [] with hc | hc
    · rw [if_pos hc, hc]
      simp [Except.isOk, Except.toBool]
    · rw [if_neg hc]
      split_ifs with hlen
      · simp only [Except.isOk, Except.toBool, Bool.false_eq_true, false_iff]
        omega
      · simp only [Except.isOk, Except.toBool, true_iff]
        push_neg at hlen
        omega

/-- Profile fetcher for the C3 counterexample: always succeeds. -/
def fpC3 : String → Option CompanyProfile := fun _ => some ⟨some "Alpha"⟩

/-- Financial fetcher for the C3 counterexample: succeeds only for "12". -/
def ffC3 : String → Option RawFinancialRecord :=
  fun cid => if cid = "12" then some emptyRecord else none

/-- Claim C3 counterexample: with exactly 2 identifiers where one
upstream fetch fails, `compare_financial_performance` raises ("Could not
retrieve financial data for enough companies") instead of returning a
result containing the one successful entity. -/
theorem claim3_counterexample :
    compare_financial_performance ["12", "34"] fpC3 ffC3
      = Except.error "Could not retrieve financial data for enough companies" := rfl

/-- Claim C3 (amended): 1 identifier raises; 11 identifiers raise; and
for a valid batch of 2 to 10 identifiers the comparison succeeds exactly
when at least 2 entities have both fetches succeed — with 2 identifiers
and one failed fetch it therefore raises rather than returning the single
surviving entity. -/
theorem claim3_compare_requires_two_successes :
    (∀ (t : String) (fp : String → Option CompanyProfile)
        (ff : String → Option RawFinancialRecord),
        compare_financial_performance [t] fp ff
          = Except.error "Provide at least 2 companies to compare")
    ∧ (∀ (tax_ids : List String) (fp : String → Option CompanyProfile)
        (ff : String → Option RawFinancialRecord), tax_ids.length = 11 →
        compare_financial_performance tax_ids fp ff
          = Except.error "Maximum 10 companies allowed for comparison")
    ∧ (∀ (tax_ids cleaned_ids : List String)
        (fp : String → Option CompanyProfile)
        (ff : String → Option RawFinancialRecord),
        2 ≤ tax_ids.length → tax_ids.length ≤ 10 →
        tax_ids.mapM validate_tax_id = Except.ok cleaned_ids →
        ((compare_financial_performance tax_ids fp ff).isOk = true ↔
          2 ≤ (comparisonEntries cleaned_ids fp ff).length)) := by
  refine ⟨?_, ?_, ?_⟩
  · intro t fp ff
    rfl
  · intro tax_ids fp ff h
    unfold compare_financial_performance
    rw [if_neg (by omega), if_pos (by omega)]
  · intro tax_ids cleaned_ids fp ff h2 h10 hval
    unfold compare_financial_performance
    rw [if_neg (by omega), if_neg (by omega), hval]
    dsimp only
    split_ifs with h
    · simp only [Except.isOk, Except.toBool, Bool.false_eq_true, false_iff]
      omega
    · simp only [Except.isOk, Except.toBool, true_iff]
      omega

/-- Profile fetcher for the C3 witness: always succeeds. -/
def fpC3w : String → Option CompanyProfile := fun _ => some ⟨some "Beta"⟩

/-- Financial fetcher for the C3 witness: always succeeds. -/
def ffC3w : String → Option RawFinancialRecord := fun _ => some emptyRecord

/-- Claim C3 witness: the amended theorem at concrete identifier lists of
sizes 1, 11 and 2. -/
theorem claim3_compare_requires_two_successes_witness :
    compare_financial_performance ["12"] fpC3w ffC3w
      = Except.error "Provide at least 2 companies to compare"
    ∧ compare_financial_performance
        ["10", "11", "12", "13", "14", "15", "16", "17", "18", "19", "20"]
        fpC3w ffC3w
      = Except.error "Maximum 10 companies allowed for comparison"
    ∧ ((compare_financial_performance ["12", "34"] fpC3w ffC3w).isOk = true ↔
        2 ≤ (comparisonEntries ["12", "34"] fpC3w ffC3w).length) :=
  ⟨claim3_compare_requires_two_successes.1 "12" fpC3w ffC3w,
   claim3_compare_requires_two_successes.2.1
     ["10", "11", "12", "13", "14", "15", "16", "17", "18", "19", "20"]
     fpC3w ffC3w rfl,
   claim3_compare_requires_two_successes.2.2 ["12", "34"] ["12", "34"]
     fpC3w ffC3w (by decide) (by decide) rfl⟩

end FinIntel
